import Mathlib

/-!
Shallow embedding of the shift-scheduling core of the plantoesRapidin
repository (apps/plantao/models.py and apps/plantao/views.py).

Conventions of the embedding:
* A calendar date is a natural number counting days from a Monday epoch,
  so a date `d` has weekday `d % 7` with Python's convention
  (Monday = 0, ..., Saturday = 5, Sunday = 6), matching `date.weekday()`.
  Python's `date + timedelta(weeks=w)` becomes `d + 7 * w`.
* A time of day is a pair of hour and minute, matching `datetime.time`.
* A `Colaborador` / `TecnicoCampo` row is identified by its id; the
  generation functions receive the already-filtered, already-ordered
  roster (`objects.filter(ativo=True).order_by('ordem_fila')`) as a
  `List Nat` of ids, since the query itself is persistence-layer glue.
* Django model instances become structures holding the model fields the
  scheduling core reads or writes; audit metadata (`criado_em`,
  `atualizado_em`, `observacoes`, `mensagem`) is omitted as it never
  influences the verified behaviour.
* Python exceptions become `Except String` / `Option String` results
  carrying the raised message; an error result returns no updated state,
  so the pre-state is what persists (the callers in views.py catch the
  exception and keep going with the old rows).
* The database `unique_together` constraints become an explicit check on
  insertion into a list-modelled table.
-/

/-- Time of day, mirroring `datetime.time(hour, minute)`. -/
structure Time where
  hour : Nat
  minute : Nat
deriving DecidableEq, Repr

/-- A row of the `Plantao` model (models.py lines 24-100) with the fields
the scheduling core reads or writes: `colaborador` (foreign key, by id),
`data`, `dia_semana`, `turno`, `hora_inicio`, `hora_fim`. -/
structure Plantao where
  colaborador : Nat
  data : Nat
  dia_semana : String
  turno : String
  hora_inicio : Time
  hora_fim : Time
deriving DecidableEq, Repr

/-- `Plantao.get_horarios_por_turno` (models.py lines 72-82): the fixed
start and end times of each `turno`, `none` for an unknown key (the
Python dict lookup with default `(None, None)`). -/
def get_horarios_por_turno (turno : String) : Option (Time × Time) :=
  if turno = "SABADO_TARDE1" then some (⟨13, 0⟩, ⟨17, 0⟩)
  else if turno = "SABADO_TARDE2" then some (⟨17, 0⟩, ⟨21, 0⟩)
  else if turno = "DOMINGO_MANHA" then some (⟨8, 0⟩, ⟨13, 0⟩)
  else if turno = "DOMINGO_TARDE1" then some (⟨13, 0⟩, ⟨17, 0⟩)
  else if turno = "DOMINGO_TARDE2" then some (⟨17, 0⟩, ⟨21, 0⟩)
  else none

/-- `Plantao.save` (models.py lines 84-100): before persisting, derive
`hora_inicio`/`hora_fim` from `turno` when the lookup succeeds (the
Python guard `if inicio and fim`), and derive `dia_semana` from
`data.weekday()` when the date falls on Saturday or Sunday. -/
def Plantao.save (p : Plantao) : Plantao :=
  let p1 :=
    match get_horarios_por_turno p.turno with
    | some (inicio, fim) => { p with hora_inicio := inicio, hora_fim := fim }
    | none => p
  if p1.data % 7 = 5 then { p1 with dia_semana := "SAB" }
  else if p1.data % 7 = 6 then { p1 with dia_semana := "DOM" }
  else p1

theorem Plantao.save_colaborador (p : Plantao) : (Plantao.save p).colaborador = p.colaborador := by
  unfold Plantao.save
  cases h : get_horarios_por_turno p.turno <;> simp only [h] <;> split <;> (try split) <;> rfl

theorem Plantao.save_data (p : Plantao) : (Plantao.save p).data = p.data := by
  unfold Plantao.save
  cases h : get_horarios_por_turno p.turno <;> simp only [h] <;> split <;> (try split) <;> rfl

theorem Plantao.save_turno (p : Plantao) : (Plantao.save p).turno = p.turno := by
  unfold Plantao.save
  cases h : get_horarios_por_turno p.turno <;> simp only [h] <;> split <;> (try split) <;> rfl

theorem Plantao.save_hora_inicio {p : Plantao} {inicio fim : Time}
    (hl : get_horarios_por_turno p.turno = some (inicio, fim)) :
    (Plantao.save p).hora_inicio = inicio := by
  unfold Plantao.save
  simp only [hl]
  split <;> (try split) <;> rfl

theorem Plantao.save_hora_fim {p : Plantao} {inicio fim : Time}
    (hl : get_horarios_por_turno p.turno = some (inicio, fim)) :
    (Plantao.save p).hora_fim = fim := by
  unfold Plantao.save
  simp only [hl]
  split <;> (try split) <;> rfl

theorem Plantao.save_of_sab {p : Plantao} {inicio fim : Time}
    (h5 : p.data % 7 = 5) (hl : get_horarios_por_turno p.turno = some (inicio, fim)) :
    Plantao.save p =
      { p with hora_inicio := inicio, hora_fim := fim, dia_semana := "SAB" } := by
  unfold Plantao.save
  simp [hl, h5]

theorem Plantao.save_of_dom {p : Plantao} {inicio fim : Time}
    (h6 : p.data % 7 = 6) (hl : get_horarios_por_turno p.turno = some (inicio, fim)) :
    Plantao.save p =
      { p with hora_inicio := inicio, hora_fim := fim, dia_semana := "DOM" } := by
  unfold Plantao.save
  simp [hl, h6]

/-- A row of the `PlantaoTecnico` model (models.py lines 274-338):
principal technician, optional paired technician (`tecnico_dupla`,
Saturday pairs only), date, `tipo` and the derived times. -/
structure PlantaoTecnico where
  tecnico_principal : Nat
  tecnico_dupla : Option Nat
  data : Nat
  tipo : String
  hora_inicio : Time
  hora_fim : Time
deriving DecidableEq, Repr

/-- `PlantaoTecnico.save` (models.py lines 323-332): unconditionally
derive the times from `tipo` before persisting: `SABADO_DUPLA` is
14:00-18:00, everything else (`DOMINGO_SOLO`, `AVULSO_SOLO`) 08:00-18:00. -/
def PlantaoTecnico.save (q : PlantaoTecnico) : PlantaoTecnico :=
  if q.tipo = "SABADO_DUPLA" then { q with hora_inicio := ⟨14, 0⟩, hora_fim := ⟨18, 0⟩ }
  else { q with hora_inicio := ⟨8, 0⟩, hora_fim := ⟨18, 0⟩ }

theorem PlantaoTecnico.save_tecnico_principal (q : PlantaoTecnico) :
    (PlantaoTecnico.save q).tecnico_principal = q.tecnico_principal := by
  unfold PlantaoTecnico.save; split <;> rfl

theorem PlantaoTecnico.save_tecnico_dupla (q : PlantaoTecnico) :
    (PlantaoTecnico.save q).tecnico_dupla = q.tecnico_dupla := by
  unfold PlantaoTecnico.save; split <;> rfl

theorem PlantaoTecnico.save_data_tecnico (q : PlantaoTecnico) :
    (PlantaoTecnico.save q).data = q.data := by
  unfold PlantaoTecnico.save; split <;> rfl

theorem PlantaoTecnico.save_tipo (q : PlantaoTecnico) :
    (PlantaoTecnico.save q).tipo = q.tipo := by
  unfold PlantaoTecnico.save; split <;> rfl

/-- A row of the `TrocaPlantao` model (models.py lines 120-195): the swap
request between two collaborators over two `Plantao` rows. The two
referenced rows are carried in the structure; the accept operation below
returns their updated values, which is the identity-reference mutation of
the Python code seen from outside. -/
structure TrocaPlantao where
  solicitante : Nat
  plantao_solicitante : Plantao
  destinatario : Nat
  plantao_destinatario : Plantao
  status : String
  respondido_em : Option Nat
deriving DecidableEq, Repr

/-- `TrocaPlantao.aceitar_troca` (models.py lines 166-179): refuse unless
the status is `PENDENTE`; otherwise swap the `colaborador` of the two
shifts, save both (which re-derives times and weekday), set the status to
`ACEITA` and stamp `respondido_em` with the current instant `agora`. -/
def TrocaPlantao.aceitar_troca (t : TrocaPlantao) (agora : Nat) : Except String TrocaPlantao :=
  if t.status ≠ "PENDENTE" then
    .error "Apenas trocas pendentes podem ser aceitas"
  else
    let temp_colab := t.plantao_solicitante.colaborador
    let ps := Plantao.save { t.plantao_solicitante with colaborador := t.plantao_destinatario.colaborador }
    let pd := Plantao.save { t.plantao_destinatario with colaborador := temp_colab }
    .ok { t with plantao_solicitante := ps, plantao_destinatario := pd,
                 status := "ACEITA", respondido_em := some agora }

/-- `TrocaPlantao.recusar_troca` (models.py lines 181-187). -/
def TrocaPlantao.recusar_troca (t : TrocaPlantao) (agora : Nat) : Except String TrocaPlantao :=
  if t.status ≠ "PENDENTE" then
    .error "Apenas trocas pendentes podem ser recusadas"
  else
    .ok { t with status := "RECUSADA", respondido_em := some agora }

/-- `TrocaPlantao.cancelar_troca` (models.py lines 189-195). -/
def TrocaPlantao.cancelar_troca (t : TrocaPlantao) (agora : Nat) : Except String TrocaPlantao :=
  if t.status ≠ "PENDENTE" then
    .error "Apenas trocas pendentes podem ser canceladas"
  else
    .ok { t with status := "CANCELADA", respondido_em := some agora }

/-- A row of the `TrocaPlantaoTecnico` model (models.py lines 341-417). -/
structure TrocaPlantaoTecnico where
  solicitante : Nat
  plantao_solicitante : PlantaoTecnico
  destinatario : Nat
  plantao_destinatario : PlantaoTecnico
  status : String
  respondido_em : Option Nat
deriving DecidableEq, Repr

/-- `TrocaPlantaoTecnico.aceitar_troca` (models.py lines 387-401): refuse
unless `PENDENTE`; otherwise swap only `tecnico_principal` between the two
shifts (the comment in the source: for Saturday pairs, only the principal
technician is exchanged), save both, set `ACEITA`, stamp `respondido_em`. -/
def TrocaPlantaoTecnico.aceitar_troca (t : TrocaPlantaoTecnico) (agora : Nat) :
    Except String TrocaPlantaoTecnico :=
  if t.status ≠ "PENDENTE" then
    .error "Apenas trocas pendentes podem ser aceitas"
  else
    let temp_principal := t.plantao_solicitante.tecnico_principal
    let ps := PlantaoTecnico.save
      { t.plantao_solicitante with tecnico_principal := t.plantao_destinatario.tecnico_principal }
    let pd := PlantaoTecnico.save
      { t.plantao_destinatario with tecnico_principal := temp_principal }
    .ok { t with plantao_solicitante := ps, plantao_destinatario := pd,
                 status := "ACEITA", respondido_em := some agora }

/-- `TrocaPlantaoTecnico.recusar_troca` (models.py lines 403-409). -/
def TrocaPlantaoTecnico.recusar_troca (t : TrocaPlantaoTecnico) (agora : Nat) :
    Except String TrocaPlantaoTecnico :=
  if t.status ≠ "PENDENTE" then
    .error "Apenas trocas pendentes podem ser recusadas"
  else
    .ok { t with status := "RECUSADA", respondido_em := some agora }

/-- `TrocaPlantaoTecnico.cancelar_troca` (models.py lines 411-417). -/
def TrocaPlantaoTecnico.cancelar_troca (t : TrocaPlantaoTecnico) (agora : Nat) :
    Except String TrocaPlantaoTecnico :=
  if t.status ≠ "PENDENTE" then
    .error "Apenas trocas pendentes podem ser canceladas"
  else
    .ok { t with status := "CANCELADA", respondido_em := some agora }

/-- One iteration of the generation loop of `_criar_plantoes_automaticos`
(views.py lines 298-310): the five `Plantao` rows passed to
`Plantao.objects.create` for week `semana` with rotation pointer
`indice` (each `create` call runs `Plantao.save`). `colabs` is the active
roster ordered by `ordem_fila`; list indexing with default 0 models
Python indexing, always in range here because the index is taken modulo
the length. -/
def plantoesSemana (d : Nat) (colabs : List Nat) (semana indice : Nat) : List Plantao :=
  let n := colabs.length
  let sabado := d + 7 * semana
  let domingo := sabado + 1
  let colab_sabado_tarde := colabs.getD (indice % n) 0
  let colab_sabado_noite := colabs.getD ((indice + 1) % n) 0
  let colab_domingo_noite := colabs.getD ((indice + 2) % n) 0
  [ Plantao.save ⟨colab_sabado_tarde, sabado, "", "SABADO_TARDE1", ⟨0, 0⟩, ⟨0, 0⟩⟩,
    Plantao.save ⟨colab_sabado_noite, sabado, "", "SABADO_TARDE2", ⟨0, 0⟩, ⟨0, 0⟩⟩,
    Plantao.save ⟨colab_sabado_noite, domingo, "", "DOMINGO_MANHA", ⟨0, 0⟩, ⟨0, 0⟩⟩,
    Plantao.save ⟨colab_sabado_tarde, domingo, "", "DOMINGO_TARDE1", ⟨0, 0⟩, ⟨0, 0⟩⟩,
    Plantao.save ⟨colab_domingo_noite, domingo, "", "DOMINGO_TARDE2", ⟨0, 0⟩, ⟨0, 0⟩⟩ ]

/-- The `for semana in range(semanas)` loop of `_criar_plantoes_automaticos`
(views.py lines 298-313) viewed in memory: the sequence of created rows in
creation order, together with the final value of `indice_fila`
(incremented by 2 per week). `semana` and `indice` are the loop counter and
pointer at entry, `s` the number of weeks still to run. -/
def gerarPlantoesAux (d : Nat) (colabs : List Nat) : Nat → Nat → Nat → List Plantao × Nat
  | 0, _, indice => ([], indice)
  | s + 1, semana, indice =>
    let resto := gerarPlantoesAux d colabs s (semana + 1) (indice + 2)
    (plantoesSemana d colabs semana indice ++ resto.1, resto.2)

/-- The whole collaborator generation loop started, as in the source, at
week 0 with `indice_fila = 0`. -/
def gerarPlantoes (d : Nat) (colabs : List Nat) (semanas : Nat) : List Plantao × Nat :=
  gerarPlantoesAux d colabs semanas 0 0

/-- One iteration of the loop of `_criar_plantoes_tecnicos` (views.py
lines 1136-1160): a paired Saturday row (`tec1` principal, `tec2` dupla)
and a solo Sunday row, in creation order. -/
def plantoesTecnicosSemana (d : Nat) (tecnicos : List Nat) (semana indice : Nat) :
    List PlantaoTecnico :=
  let n := tecnicos.length
  let sabado := d + 7 * semana
  let domingo := sabado + 1
  let tec1 := tecnicos.getD (indice % n) 0
  let tec2 := tecnicos.getD ((indice + 1) % n) 0
  let tec_domingo := tecnicos.getD ((indice + 2) % n) 0
  [ PlantaoTecnico.save ⟨tec1, some tec2, sabado, "SABADO_DUPLA", ⟨0, 0⟩, ⟨0, 0⟩⟩,
    PlantaoTecnico.save ⟨tec_domingo, none, domingo, "DOMINGO_SOLO", ⟨0, 0⟩, ⟨0, 0⟩⟩ ]

/-- The technician generation loop (views.py lines 1136-1160) in memory:
created rows in order plus the final `indice` (incremented by 3 per week). -/
def gerarPlantoesTecnicosAux (d : Nat) (tecnicos : List Nat) :
    Nat → Nat → Nat → List PlantaoTecnico × Nat
  | 0, _, indice => ([], indice)
  | s + 1, semana, indice =>
    let resto := gerarPlantoesTecnicosAux d tecnicos s (semana + 1) (indice + 3)
    (plantoesTecnicosSemana d tecnicos semana indice ++ resto.1, resto.2)

/-- The whole technician generation loop started at week 0, `indice = 0`. -/
def gerarPlantoesTecnicos (d : Nat) (tecnicos : List Nat) (semanas : Nat) :
    List PlantaoTecnico × Nat :=
  gerarPlantoesTecnicosAux d tecnicos semanas 0 0

/-- Result of a generation run against the persisted table: the table
after the run, the count the function would return (`plantoes_criados`),
and the error raised, if any (`none` on success). -/
structure GenResult (α : Type) where
  registry : List α
  criados : Nat
  erro : Option String
deriving DecidableEq, Repr

/-- Insertion into the persisted `Plantao` table under the
`unique_together = ['data', 'turno']` constraint (models.py line 58):
a row colliding on `(data, turno)` makes the insert fail (Django raises
an IntegrityError from the database) and leaves the table unchanged. -/
def inserirPlantao (reg : List Plantao) (p : Plantao) : List Plantao × Option String :=
  if reg.any (fun q => decide (q.data = p.data) && decide (q.turno = p.turno)) then
    (reg, some "UNIQUE constraint failed: plantao.data, plantao.turno")
  else
    (reg ++ [p], none)

/-- Insert a batch of rows one statement at a time, as the loop body of
`_criar_plantoes_automaticos` does in Django autocommit mode: each
successful insert is committed immediately; the first failure aborts the
batch, keeping everything inserted before it. -/
def inserirPlantoes (reg : List Plantao) : List Plantao → List Plantao × Option String
  | [] => (reg, none)
  | p :: ps =>
    match inserirPlantao reg p with
    | (reg2, none) => inserirPlantoes reg2 ps
    | (reg2, some e) => (reg2, some e)

/-- Insertion into the persisted `PlantaoTecnico` table under
`unique_together = ['data', 'tipo']` (models.py line 316). -/
def inserirPlantaoTecnico (reg : List PlantaoTecnico) (q : PlantaoTecnico) :
    List PlantaoTecnico × Option String :=
  if reg.any (fun r => decide (r.data = q.data) && decide (r.tipo = q.tipo)) then
    (reg, some "UNIQUE constraint failed: plantao_tecnico.data, plantao_tecnico.tipo")
  else
    (reg ++ [q], none)

/-- Batch insertion for technician rows, same discipline as `inserirPlantoes`. -/
def inserirPlantoesTecnicos (reg : List PlantaoTecnico) :
    List PlantaoTecnico → List PlantaoTecnico × Option String
  | [] => (reg, none)
  | q :: qs =>
    match inserirPlantaoTecnico reg q with
    | (reg2, none) => inserirPlantoesTecnicos reg2 qs
    | (reg2, some e) => (reg2, some e)

/-- The loop of `_criar_plantoes_automaticos` (views.py lines 295-313)
with its database effects: per week, create (and insert) the five rows of
`plantoesSemana`, add 5 to `plantoes_criados`, add 2 to `indice_fila`;
an insert failure propagates out of the function at once, dropping the
in-flight count, with the table keeping all rows committed so far. -/
def criarPlantoesAutomaticosAux (colabs : List Nat) (d : Nat) :
    Nat → Nat → Nat → Nat → List Plantao → GenResult Plantao
  | 0, _, criados, _, reg => ⟨reg, criados, none⟩
  | s + 1, semana, criados, indice, reg =>
    match inserirPlantoes reg (plantoesSemana d colabs semana indice) with
    | (reg2, none) => criarPlantoesAutomaticosAux colabs d s (semana + 1) (criados + 5) (indice + 2) reg2
    | (reg2, some e) => ⟨reg2, criados, some e⟩

/-- `_criar_plantoes_automaticos(data_inicio, semanas)` (views.py lines
287-315) run against the table `reg`, with the active ordered roster
`colabs`: raise at once when fewer than 2 active collaborators exist,
otherwise run the weekly loop from week 0, count 0, `indice_fila = 0`. -/
def criar_plantoes_automaticos (colabs : List Nat) (reg : List Plantao)
    (data_inicio semanas : Nat) : GenResult Plantao :=
  if colabs.length < 2 then
    ⟨reg, 0, some "É necessário ter pelo menos 2 colaboradores ativos!"⟩
  else
    criarPlantoesAutomaticosAux colabs data_inicio semanas 0 0 0 reg

/-- The loop of `_criar_plantoes_tecnicos` (views.py lines 1133-1160) with
its database effects: per week, two inserts, `plantoes_criados += 2`
(1 after each insert), `indice += 3`. -/
def criarPlantoesTecnicosAux (tecnicos : List Nat) (d : Nat) :
    Nat → Nat → Nat → Nat → List PlantaoTecnico → GenResult PlantaoTecnico
  | 0, _, criados, _, reg => ⟨reg, criados, none⟩
  | s + 1, semana, criados, indice, reg =>
    match inserirPlantoesTecnicos reg (plantoesTecnicosSemana d tecnicos semana indice) with
    | (reg2, none) => criarPlantoesTecnicosAux tecnicos d s (semana + 1) (criados + 2) (indice + 3) reg2
    | (reg2, some e) => ⟨reg2, criados, some e⟩

/-- `_criar_plantoes_tecnicos(data_inicio, semanas)` (views.py lines
1123-1162) run against the table `reg` with the active ordered roster
`tecnicos`. -/
def criar_plantoes_tecnicos (tecnicos : List Nat) (reg : List PlantaoTecnico)
    (data_inicio semanas : Nat) : GenResult PlantaoTecnico :=
  if tecnicos.length < 2 then
    ⟨reg, 0, some "É necessário ter pelo menos 2 técnicos ativos!"⟩
  else
    criarPlantoesTecnicosAux tecnicos data_inicio semanas 0 0 0 reg

/-- Two `Plantao` rows differ on the key of the uniqueness constraint
`unique_together = ['data', 'turno']`. -/
def chaveDiferente (p q : Plantao) : Prop := p.data ≠ q.data ∨ p.turno ≠ q.turno

/-- Two `PlantaoTecnico` rows differ on the key of
`unique_together = ['data', 'tipo']`. -/
def chaveTecnicoDiferente (p q : PlantaoTecnico) : Prop := p.data ≠ q.data ∨ p.tipo ≠ q.tipo

theorem plantoesSemana_length (d : Nat) (colabs : List Nat) (semana indice : Nat) :
    (plantoesSemana d colabs semana indice).length = 5 := rfl

theorem mem_plantoesSemana_data {d : Nat} {colabs : List Nat} {semana indice : Nat} {p : Plantao}
    (h : p ∈ plantoesSemana d colabs semana indice) :
    d + 7 * semana ≤ p.data ∧ p.data ≤ d + 7 * semana + 1 := by
  simp only [plantoesSemana, List.mem_cons, List.not_mem_nil, or_false] at h
  rcases h with h | h | h | h | h <;> subst h <;>
    rw [Plantao.save_data] <;> refine ⟨?_, ?_⟩ <;> simp

theorem map_turno_plantoesSemana (d : Nat) (colabs : List Nat) (semana indice : Nat) :
    (plantoesSemana d colabs semana indice).map Plantao.turno =
      ["SABADO_TARDE1", "SABADO_TARDE2", "DOMINGO_MANHA", "DOMINGO_TARDE1", "DOMINGO_TARDE2"] := by
  simp [plantoesSemana, Plantao.save_turno]

theorem pairwise_plantoesSemana (d : Nat) (colabs : List Nat) (semana indice : Nat) :
    List.Pairwise chaveDiferente (plantoesSemana d colabs semana indice) := by
  have h : List.Pairwise (fun a b : String => a ≠ b)
      ((plantoesSemana d colabs semana indice).map Plantao.turno) := by
    rw [map_turno_plantoesSemana]; decide
  rw [List.pairwise_map] at h
  exact h.imp (fun hab => Or.inr hab)

theorem mem_gerarPlantoesAux_data {d : Nat} {colabs : List Nat} :
    ∀ {s semana indice : Nat} {p : Plantao},
      p ∈ (gerarPlantoesAux d colabs s semana indice).1 → d + 7 * semana ≤ p.data := by
  intro s
  induction s with
  | zero => intro semana indice p h; simp [gerarPlantoesAux] at h
  | succ s ih =>
    intro semana indice p h
    simp only [gerarPlantoesAux, List.mem_append] at h
    rcases h with h | h
    · exact (mem_plantoesSemana_data h).1
    · have := ih h
      omega

theorem pairwise_gerarPlantoesAux (d : Nat) (colabs : List Nat) :
    ∀ (s semana indice : Nat),
      List.Pairwise chaveDiferente (gerarPlantoesAux d colabs s semana indice).1 := by
  intro s
  induction s with
  | zero => intro _ _; simp [gerarPlantoesAux]
  | succ s ih =>
    intro semana indice
    simp only [gerarPlantoesAux]
    rw [List.pairwise_append]
    refine ⟨pairwise_plantoesSemana d colabs semana indice, ih (semana + 1) (indice + 2), ?_⟩
    intro p hp q hq
    have h1 := (mem_plantoesSemana_data hp).2
    have h2 := mem_gerarPlantoesAux_data hq
    exact Or.inl (by omega)

theorem gerarPlantoesAux_length (d : Nat) (colabs : List Nat) :
    ∀ (s semana indice : Nat), (gerarPlantoesAux d colabs s semana indice).1.length = 5 * s := by
  intro s
  induction s with
  | zero => intro _ _; rfl
  | succ s ih =>
    intro semana indice
    simp only [gerarPlantoesAux, List.length_append, plantoesSemana_length, ih]
    omega

theorem gerarPlantoesAux_indice (d : Nat) (colabs : List Nat) :
    ∀ (s semana indice : Nat), (gerarPlantoesAux d colabs s semana indice).2 = indice + 2 * s := by
  intro s
  induction s with
  | zero => intro _ _; simp [gerarPlantoesAux]
  | succ s ih =>
    intro semana indice
    simp only [gerarPlantoesAux, ih]
    omega

theorem plantoesTecnicosSemana_length (d : Nat) (tecnicos : List Nat) (semana indice : Nat) :
    (plantoesTecnicosSemana d tecnicos semana indice).length = 2 := rfl

theorem mem_plantoesTecnicosSemana_data {d : Nat} {tecnicos : List Nat} {semana indice : Nat}
    {q : PlantaoTecnico} (h : q ∈ plantoesTecnicosSemana d tecnicos semana indice) :
    d + 7 * semana ≤ q.data ∧ q.data ≤ d + 7 * semana + 1 := by
  simp only [plantoesTecnicosSemana, List.mem_cons, List.not_mem_nil, or_false] at h
  rcases h with h | h <;> subst h <;>
    rw [PlantaoTecnico.save_data_tecnico] <;> refine ⟨?_, ?_⟩ <;> simp

theorem map_tipo_plantoesTecnicosSemana (d : Nat) (tecnicos : List Nat) (semana indice : Nat) :
    (plantoesTecnicosSemana d tecnicos semana indice).map PlantaoTecnico.tipo =
      ["SABADO_DUPLA", "DOMINGO_SOLO"] := by
  simp [plantoesTecnicosSemana, PlantaoTecnico.save_tipo]

theorem pairwise_plantoesTecnicosSemana (d : Nat) (tecnicos : List Nat) (semana indice : Nat) :
    List.Pairwise chaveTecnicoDiferente (plantoesTecnicosSemana d tecnicos semana indice) := by
  have h : List.Pairwise (fun a b : String => a ≠ b)
      ((plantoesTecnicosSemana d tecnicos semana indice).map PlantaoTecnico.tipo) := by
    rw [map_tipo_plantoesTecnicosSemana]; decide
  rw [List.pairwise_map] at h
  exact h.imp (fun hab => Or.inr hab)

theorem mem_gerarPlantoesTecnicosAux_data {d : Nat} {tecnicos : List Nat} :
    ∀ {s semana indice : Nat} {q : PlantaoTecnico},
      q ∈ (gerarPlantoesTecnicosAux d tecnicos s semana indice).1 → d + 7 * semana ≤ q.data := by
  intro s
  induction s with
  | zero => intro semana indice q h; simp [gerarPlantoesTecnicosAux] at h
  | succ s ih =>
    intro semana indice q h
    simp only [gerarPlantoesTecnicosAux, List.mem_append] at h
    rcases h with h | h
    · exact (mem_plantoesTecnicosSemana_data h).1
    · have := ih h
      omega

theorem pairwise_gerarPlantoesTecnicosAux (d : Nat) (tecnicos : List Nat) :
    ∀ (s semana indice : Nat),
      List.Pairwise chaveTecnicoDiferente (gerarPlantoesTecnicosAux d tecnicos s semana indice).1 := by
  intro s
  induction s with
  | zero => intro _ _; simp [gerarPlantoesTecnicosAux]
  | succ s ih =>
    intro semana indice
    simp only [gerarPlantoesTecnicosAux]
    rw [List.pairwise_append]
    refine ⟨pairwise_plantoesTecnicosSemana d tecnicos semana indice, ih (semana + 1) (indice + 3), ?_⟩
    intro p hp q hq
    have h1 := (mem_plantoesTecnicosSemana_data hp).2
    have h2 := mem_gerarPlantoesTecnicosAux_data hq
    exact Or.inl (by omega)

theorem gerarPlantoesTecnicosAux_length (d : Nat) (tecnicos : List Nat) :
    ∀ (s semana indice : Nat),
      (gerarPlantoesTecnicosAux d tecnicos s semana indice).1.length = 2 * s := by
  intro s
  induction s with
  | zero => intro _ _; rfl
  | succ s ih =>
    intro semana indice
    simp only [gerarPlantoesTecnicosAux, List.length_append, plantoesTecnicosSemana_length, ih]
    omega

theorem gerarPlantoesTecnicosAux_indice (d : Nat) (tecnicos : List Nat) :
    ∀ (s semana indice : Nat),
      (gerarPlantoesTecnicosAux d tecnicos s semana indice).2 = indice + 3 * s := by
  intro s
  induction s with
  | zero => intro _ _; simp [gerarPlantoesTecnicosAux]
  | succ s ih =>
    intro semana indice
    simp only [gerarPlantoesTecnicosAux, ih]
    omega

/-- C1. For every roster of n >= 2 active members (ordered by queue
position) and every cycle count k >= 1, the collaborator generator
produces exactly 5k assignments and the technician generator produces
exactly 2k assignments, and within one generation run no two produced
assignments share the same (date, slot_type) pair. -/
theorem c1_contagem_e_chaves_distintas (d k : Nat) (colabs tecnicos : List Nat)
    (hc : 2 ≤ colabs.length) (ht : 2 ≤ tecnicos.length) (hk : 1 ≤ k) :
    (gerarPlantoes d colabs k).1.length = 5 * k ∧
    List.Pairwise chaveDiferente (gerarPlantoes d colabs k).1 ∧
    (gerarPlantoesTecnicos d tecnicos k).1.length = 2 * k ∧
    List.Pairwise chaveTecnicoDiferente (gerarPlantoesTecnicos d tecnicos k).1 :=
  ⟨gerarPlantoesAux_length d colabs k 0 0,
   pairwise_gerarPlantoesAux d colabs k 0 0,
   gerarPlantoesTecnicosAux_length d tecnicos k 0 0,
   pairwise_gerarPlantoesTecnicosAux d tecnicos k 0 0⟩

/-- Witness for C1 at a concrete input: roster `[0, 1]` in both domains,
start date 5 (a Saturday), one cycle. -/
theorem c1_contagem_e_chaves_distintas_witness :
    (2 ≤ ([0, 1] : List Nat).length ∧ 1 ≤ 1) ∧
    ((gerarPlantoes 5 [0, 1] 1).1.length = 5 * 1 ∧
     List.Pairwise chaveDiferente (gerarPlantoes 5 [0, 1] 1).1 ∧
     (gerarPlantoesTecnicos 5 [0, 1] 1).1.length = 2 * 1 ∧
     List.Pairwise chaveTecnicoDiferente (gerarPlantoesTecnicos 5 [0, 1] 1).1) :=
  ⟨⟨by decide, by decide⟩,
   c1_contagem_e_chaves_distintas 5 1 [0, 1] [0, 1] (by decide) (by decide) (by decide)⟩

theorem plantoesSemana_eq_of_sabado {d : Nat} (colabs : List Nat) (semana indice : Nat)
    (hsat : d % 7 = 5) :
    plantoesSemana d colabs semana indice =
      [ ⟨colabs.getD (indice % colabs.length) 0, d + 7 * semana, "SAB",
          "SABADO_TARDE1", ⟨13, 0⟩, ⟨17, 0⟩⟩,
        ⟨colabs.getD ((indice + 1) % colabs.length) 0, d + 7 * semana, "SAB",
          "SABADO_TARDE2", ⟨17, 0⟩, ⟨21, 0⟩⟩,
        ⟨colabs.getD ((indice + 1) % colabs.length) 0, d + 7 * semana + 1, "DOM",
          "DOMINGO_MANHA", ⟨8, 0⟩, ⟨13, 0⟩⟩,
        ⟨colabs.getD (indice % colabs.length) 0, d + 7 * semana + 1, "DOM",
          "DOMINGO_TARDE1", ⟨13, 0⟩, ⟨17, 0⟩⟩,
        ⟨colabs.getD ((indice + 2) % colabs.length) 0, d + 7 * semana + 1, "DOM",
          "DOMINGO_TARDE2", ⟨17, 0⟩, ⟨21, 0⟩⟩ ] := by
  have h5 : (d + 7 * semana) % 7 = 5 := by omega
  have h6 : (d + 7 * semana + 1) % 7 = 6 := by omega
  simp only [plantoesSemana]
  simp [Plantao.save, get_horarios_por_turno, h5, h6]

theorem gerarPlantoesAux_flatMap (d : Nat) (colabs : List Nat) :
    ∀ (s semana indice : Nat),
      (gerarPlantoesAux d colabs s semana indice).1 =
        (List.range s).flatMap
          (fun c => plantoesSemana d colabs (semana + c) (indice + 2 * c)) := by
  intro s
  induction s with
  | zero => intro _ _; rfl
  | succ s ih =>
    intro semana indice
    simp only [gerarPlantoesAux, ih (semana + 1) (indice + 2),
      List.range_succ_eq_map, List.flatMap_cons, List.flatMap_map, Nat.add_zero, Nat.mul_zero]
    refine congrArg (fun l => plantoesSemana d colabs semana indice ++ l)
      (congrArg (List.flatMap (List.range s)) (funext fun c => ?_))
    rw [show semana + 1 + c = semana + c.succ by omega,
        show indice + 2 + 2 * c = indice + 2 * c.succ by omega]

/-- C2. For every collaborator generation run with roster size n >= 2
starting at a Saturday, each cycle c emits exactly the five assignments
(Saturday 13-17 -> roster[p mod n], Saturday 17-21 -> roster[(p+1) mod n],
Sunday 08-13 -> roster[(p+1) mod n], Sunday 13-17 -> roster[p mod n],
Sunday 17-21 -> roster[(p+2) mod n]) where p is the rotation pointer at
the start of cycle c and the Saturday of cycle c is start_date + 7c days,
and the pointer advances by exactly 2 (not 3) from each cycle to the
next; in particular for roster [A(0), B(1), C(2)] and cycle_count = 1 the
output is (Sat 13-17, A), (Sat 17-21, B), (Sun 08-13, B), (Sun 13-17, A),
(Sun 17-21, C) and the pointer ends at 2. -/
theorem c2_rotacao_semanal (d k : Nat) (colabs : List Nat)
    (h2 : 2 ≤ colabs.length) (hsat : d % 7 = 5) (hk : 1 ≤ k) :
    (∀ semana indice : Nat,
      plantoesSemana d colabs semana indice =
        [ ⟨colabs.getD (indice % colabs.length) 0, d + 7 * semana, "SAB",
            "SABADO_TARDE1", ⟨13, 0⟩, ⟨17, 0⟩⟩,
          ⟨colabs.getD ((indice + 1) % colabs.length) 0, d + 7 * semana, "SAB",
            "SABADO_TARDE2", ⟨17, 0⟩, ⟨21, 0⟩⟩,
          ⟨colabs.getD ((indice + 1) % colabs.length) 0, d + 7 * semana + 1, "DOM",
            "DOMINGO_MANHA", ⟨8, 0⟩, ⟨13, 0⟩⟩,
          ⟨colabs.getD (indice % colabs.length) 0, d + 7 * semana + 1, "DOM",
            "DOMINGO_TARDE1", ⟨13, 0⟩, ⟨17, 0⟩⟩,
          ⟨colabs.getD ((indice + 2) % colabs.length) 0, d + 7 * semana + 1, "DOM",
            "DOMINGO_TARDE2", ⟨17, 0⟩, ⟨21, 0⟩⟩ ]) ∧
    (gerarPlantoes d colabs k).1 =
      (List.range k).flatMap (fun c => plantoesSemana d colabs c (2 * c)) ∧
    (gerarPlantoes d colabs k).2 = 2 * k ∧
    gerarPlantoes 5 [0, 1, 2] 1 =
      ([ ⟨0, 5, "SAB", "SABADO_TARDE1", ⟨13, 0⟩, ⟨17, 0⟩⟩,
         ⟨1, 5, "SAB", "SABADO_TARDE2", ⟨17, 0⟩, ⟨21, 0⟩⟩,
         ⟨1, 6, "DOM", "DOMINGO_MANHA", ⟨8, 0⟩, ⟨13, 0⟩⟩,
         ⟨0, 6, "DOM", "DOMINGO_TARDE1", ⟨13, 0⟩, ⟨17, 0⟩⟩,
         ⟨2, 6, "DOM", "DOMINGO_TARDE2", ⟨17, 0⟩, ⟨21, 0⟩⟩ ], 2) := by
  refine ⟨fun semana indice => plantoesSemana_eq_of_sabado colabs semana indice hsat, ?_, ?_, ?_⟩
  · have h := gerarPlantoesAux_flatMap d colabs k 0 0
    simpa [gerarPlantoes] using h
  · have h := gerarPlantoesAux_indice d colabs k 0 0
    simpa [gerarPlantoes] using h
  · decide

/-- Witness for C2 at a concrete input: roster `[0, 1, 2]`, start date 5
(a Saturday), one cycle. -/
theorem c2_rotacao_semanal_witness :
    (2 ≤ ([0, 1, 2] : List Nat).length ∧ (5 : Nat) % 7 = 5 ∧ 1 ≤ 1) ∧
    ((gerarPlantoes 5 [0, 1, 2] 1).1 =
      (List.range 1).flatMap (fun c => plantoesSemana 5 [0, 1, 2] c (2 * c)) ∧
     (gerarPlantoes 5 [0, 1, 2] 1).2 = 2 * 1) :=
  ⟨⟨by decide, by decide, by decide⟩,
   (c2_rotacao_semanal 5 1 [0, 1, 2] (by decide) (by decide) (by decide)).2.1,
   (c2_rotacao_semanal 5 1 [0, 1, 2] (by decide) (by decide) (by decide)).2.2.1⟩

/-- C3. For every PENDING swap request, accept exchanges the assigned
person between the requester's shift and the target's shift (after
accept, the requester's shift is owned by the old target person and the
target's shift by the old requester person), leaves the dates, slot
types and times of both shifts unchanged, sets the request status to
ACCEPTED, and stamps the resolution timestamp. The two time hypotheses
say the stored times of each shift are the ones derived from its slot
type, which `Plantao.save` guarantees for every persisted row (claim C9). -/
theorem c3_aceitar_troca_atomica (t : TrocaPlantao) (agora : Nat)
    (hp : t.status = "PENDENTE")
    (hs : get_horarios_por_turno t.plantao_solicitante.turno =
      some (t.plantao_solicitante.hora_inicio, t.plantao_solicitante.hora_fim))
    (hd : get_horarios_por_turno t.plantao_destinatario.turno =
      some (t.plantao_destinatario.hora_inicio, t.plantao_destinatario.hora_fim)) :
    ∃ t2, t.aceitar_troca agora = .ok t2 ∧
      t2.plantao_solicitante.colaborador = t.plantao_destinatario.colaborador ∧
      t2.plantao_destinatario.colaborador = t.plantao_solicitante.colaborador ∧
      t2.plantao_solicitante.data = t.plantao_solicitante.data ∧
      t2.plantao_solicitante.turno = t.plantao_solicitante.turno ∧
      t2.plantao_solicitante.hora_inicio = t.plantao_solicitante.hora_inicio ∧
      t2.plantao_solicitante.hora_fim = t.plantao_solicitante.hora_fim ∧
      t2.plantao_destinatario.data = t.plantao_destinatario.data ∧
      t2.plantao_destinatario.turno = t.plantao_destinatario.turno ∧
      t2.plantao_destinatario.hora_inicio = t.plantao_destinatario.hora_inicio ∧
      t2.plantao_destinatario.hora_fim = t.plantao_destinatario.hora_fim ∧
      t2.status = "ACEITA" ∧
      t2.respondido_em = some agora := by
  refine ⟨{ t with
      plantao_solicitante :=
        Plantao.save { t.plantao_solicitante with colaborador := t.plantao_destinatario.colaborador },
      plantao_destinatario :=
        Plantao.save { t.plantao_destinatario with colaborador := t.plantao_solicitante.colaborador },
      status := "ACEITA", respondido_em := some agora }, ?_, ?_⟩
  · unfold TrocaPlantao.aceitar_troca
    rw [if_neg (by simp [hp])]
  · have hs2 : get_horarios_por_turno
        ({ t.plantao_solicitante with colaborador := t.plantao_destinatario.colaborador } : Plantao).turno =
      some (({ t.plantao_solicitante with colaborador := t.plantao_destinatario.colaborador } : Plantao).hora_inicio,
            ({ t.plantao_solicitante with colaborador := t.plantao_destinatario.colaborador } : Plantao).hora_fim) := by
      simpa using hs
    have hd2 : get_horarios_por_turno
        ({ t.plantao_destinatario with colaborador := t.plantao_solicitante.colaborador } : Plantao).turno =
      some (({ t.plantao_destinatario with colaborador := t.plantao_solicitante.colaborador } : Plantao).hora_inicio,
            ({ t.plantao_destinatario with colaborador := t.plantao_solicitante.colaborador } : Plantao).hora_fim) := by
      simpa using hd
    refine ⟨?_, ?_, ?_, ?_, ?_, ?_, ?_, ?_, ?_, ?_, ?_, ?_⟩ <;>
      simp [Plantao.save_colaborador, Plantao.save_data, Plantao.save_turno,
        Plantao.save_hora_inicio hs2, Plantao.save_hora_fim hs2,
        Plantao.save_hora_inicio hd2, Plantao.save_hora_fim hd2]

/-- Witness for C3: a concrete pending request between collaborators 1
and 3 over the two Saturday-afternoon and Sunday-morning shifts. -/
theorem c3_aceitar_troca_atomica_witness :
    (TrocaPlantao.status ⟨1, ⟨1, 5, "SAB", "SABADO_TARDE1", ⟨13, 0⟩, ⟨17, 0⟩⟩, 3,
        ⟨3, 6, "DOM", "DOMINGO_MANHA", ⟨8, 0⟩, ⟨13, 0⟩⟩, "PENDENTE", none⟩ = "PENDENTE") ∧
    (∃ t2, TrocaPlantao.aceitar_troca ⟨1, ⟨1, 5, "SAB", "SABADO_TARDE1", ⟨13, 0⟩, ⟨17, 0⟩⟩, 3,
        ⟨3, 6, "DOM", "DOMINGO_MANHA", ⟨8, 0⟩, ⟨13, 0⟩⟩, "PENDENTE", none⟩ 42 = .ok t2 ∧
      t2.plantao_solicitante.colaborador = 3 ∧
      t2.plantao_destinatario.colaborador = 1 ∧
      t2.plantao_solicitante.data = 5 ∧
      t2.plantao_solicitante.turno = "SABADO_TARDE1" ∧
      t2.plantao_solicitante.hora_inicio = ⟨13, 0⟩ ∧
      t2.plantao_solicitante.hora_fim = ⟨17, 0⟩ ∧
      t2.plantao_destinatario.data = 6 ∧
      t2.plantao_destinatario.turno = "DOMINGO_MANHA" ∧
      t2.plantao_destinatario.hora_inicio = ⟨8, 0⟩ ∧
      t2.plantao_destinatario.hora_fim = ⟨13, 0⟩ ∧
      t2.status = "ACEITA" ∧
      t2.respondido_em = some 42) :=
  ⟨by decide,
   c3_aceitar_troca_atomica
     ⟨1, ⟨1, 5, "SAB", "SABADO_TARDE1", ⟨13, 0⟩, ⟨17, 0⟩⟩, 3,
      ⟨3, 6, "DOM", "DOMINGO_MANHA", ⟨8, 0⟩, ⟨13, 0⟩⟩, "PENDENTE", none⟩ 42
     (by decide) (by decide) (by decide)⟩

/-- C4. For every swap request whose status is a terminal value (ACCEPTED,
REJECTED, or CANCELLED), every subsequent call to accept, reject, or
cancel fails with the NotPending error and leaves the request, both
referenced shifts, and all other state completely unchanged; no
transition out of a terminal state exists. In this pure embedding an
error result carries no updated state, so the pre-state persists
unchanged: the Python methods raise before assigning any field. Both the
collaborator and the technician request models are covered. -/
theorem c4_estado_terminal (t : TrocaPlantao) (u : TrocaPlantaoTecnico) (agora : Nat)
    (ht : t.status = "ACEITA" ∨ t.status = "RECUSADA" ∨ t.status = "CANCELADA")
    (hu : u.status = "ACEITA" ∨ u.status = "RECUSADA" ∨ u.status = "CANCELADA") :
    t.aceitar_troca agora = .error "Apenas trocas pendentes podem ser aceitas" ∧
    t.recusar_troca agora = .error "Apenas trocas pendentes podem ser recusadas" ∧
    t.cancelar_troca agora = .error "Apenas trocas pendentes podem ser canceladas" ∧
    u.aceitar_troca agora = .error "Apenas trocas pendentes podem ser aceitas" ∧
    u.recusar_troca agora = .error "Apenas trocas pendentes podem ser recusadas" ∧
    u.cancelar_troca agora = .error "Apenas trocas pendentes podem ser canceladas" := by
  have hnt : t.status ≠ "PENDENTE" := by rcases ht with h | h | h <;> simp [h]
  have hnu : u.status ≠ "PENDENTE" := by rcases hu with h | h | h <;> simp [h]
  refine ⟨?_, ?_, ?_, ?_, ?_, ?_⟩ <;>
    simp [TrocaPlantao.aceitar_troca, TrocaPlantao.recusar_troca, TrocaPlantao.cancelar_troca,
      TrocaPlantaoTecnico.aceitar_troca, TrocaPlantaoTecnico.recusar_troca,
      TrocaPlantaoTecnico.cancelar_troca, hnt, hnu]

/-- Witness for C4: concrete already-resolved requests. -/
theorem c4_estado_terminal_witness :
    ((TrocaPlantao.status ⟨1, ⟨1, 5, "SAB", "SABADO_TARDE1", ⟨13, 0⟩, ⟨17, 0⟩⟩, 3,
        ⟨3, 6, "DOM", "DOMINGO_MANHA", ⟨8, 0⟩, ⟨13, 0⟩⟩, "ACEITA", some 9⟩ = "ACEITA") ∧
     (TrocaPlantaoTecnico.status ⟨1, ⟨1, some 2, 5, "SABADO_DUPLA", ⟨14, 0⟩, ⟨18, 0⟩⟩, 3,
        ⟨3, none, 6, "DOMINGO_SOLO", ⟨8, 0⟩, ⟨18, 0⟩⟩, "RECUSADA", some 9⟩ = "RECUSADA")) ∧
    (TrocaPlantao.aceitar_troca ⟨1, ⟨1, 5, "SAB", "SABADO_TARDE1", ⟨13, 0⟩, ⟨17, 0⟩⟩, 3,
        ⟨3, 6, "DOM", "DOMINGO_MANHA", ⟨8, 0⟩, ⟨13, 0⟩⟩, "ACEITA", some 9⟩ 42 =
      .error "Apenas trocas pendentes podem ser aceitas" ∧
     TrocaPlantao.recusar_troca ⟨1, ⟨1, 5, "SAB", "SABADO_TARDE1", ⟨13, 0⟩, ⟨17, 0⟩⟩, 3,
        ⟨3, 6, "DOM", "DOMINGO_MANHA", ⟨8, 0⟩, ⟨13, 0⟩⟩, "ACEITA", some 9⟩ 42 =
      .error "Apenas trocas pendentes podem ser recusadas" ∧
     TrocaPlantao.cancelar_troca ⟨1, ⟨1, 5, "SAB", "SABADO_TARDE1", ⟨13, 0⟩, ⟨17, 0⟩⟩, 3,
        ⟨3, 6, "DOM", "DOMINGO_MANHA", ⟨8, 0⟩, ⟨13, 0⟩⟩, "ACEITA", some 9⟩ 42 =
      .error "Apenas trocas pendentes podem ser canceladas" ∧
     TrocaPlantaoTecnico.aceitar_troca ⟨1, ⟨1, some 2, 5, "SABADO_DUPLA", ⟨14, 0⟩, ⟨18, 0⟩⟩, 3,
        ⟨3, none, 6, "DOMINGO_SOLO", ⟨8, 0⟩, ⟨18, 0⟩⟩, "RECUSADA", some 9⟩ 42 =
      .error "Apenas trocas pendentes podem ser aceitas" ∧
     TrocaPlantaoTecnico.recusar_troca ⟨1, ⟨1, some 2, 5, "SABADO_DUPLA", ⟨14, 0⟩, ⟨18, 0⟩⟩, 3,
        ⟨3, none, 6, "DOMINGO_SOLO", ⟨8, 0⟩, ⟨18, 0⟩⟩, "RECUSADA", some 9⟩ 42 =
      .error "Apenas trocas pendentes podem ser recusadas" ∧
     TrocaPlantaoTecnico.cancelar_troca ⟨1, ⟨1, some 2, 5, "SABADO_DUPLA", ⟨14, 0⟩, ⟨18, 0⟩⟩, 3,
        ⟨3, none, 6, "DOMINGO_SOLO", ⟨8, 0⟩, ⟨18, 0⟩⟩, "RECUSADA", some 9⟩ 42 =
      .error "Apenas trocas pendentes podem ser canceladas") :=
  ⟨⟨by decide, by decide⟩,
   c4_estado_terminal
     ⟨1, ⟨1, 5, "SAB", "SABADO_TARDE1", ⟨13, 0⟩, ⟨17, 0⟩⟩, 3,
      ⟨3, 6, "DOM", "DOMINGO_MANHA", ⟨8, 0⟩, ⟨13, 0⟩⟩, "ACEITA", some 9⟩
     ⟨1, ⟨1, some 2, 5, "SABADO_DUPLA", ⟨14, 0⟩, ⟨18, 0⟩⟩, 3,
      ⟨3, none, 6, "DOMINGO_SOLO", ⟨8, 0⟩, ⟨18, 0⟩⟩, "RECUSADA", some 9⟩
     42 (Or.inl (by decide)) (Or.inr (Or.inl (by decide)))⟩

/-- C10. For every PENDING technician swap request, accept exchanges only
the principal technician between the two referenced technician shifts;
the paired second technician (dupla) field of both shifts is left
unchanged. The conclusion holds for every pending request, in particular
when the requester or target appears on a shift only as the dupla: the
accept method never reads or writes `tecnico_dupla`. -/
theorem c10_dupla_preservada (u : TrocaPlantaoTecnico) (agora : Nat)
    (hp : u.status = "PENDENTE") :
    ∃ u2, u.aceitar_troca agora = .ok u2 ∧
      u2.plantao_solicitante.tecnico_principal = u.plantao_destinatario.tecnico_principal ∧
      u2.plantao_destinatario.tecnico_principal = u.plantao_solicitante.tecnico_principal ∧
      u2.plantao_solicitante.tecnico_dupla = u.plantao_solicitante.tecnico_dupla ∧
      u2.plantao_destinatario.tecnico_dupla = u.plantao_destinatario.tecnico_dupla ∧
      u2.status = "ACEITA" ∧
      u2.respondido_em = some agora := by
  refine ⟨{ u with
      plantao_solicitante := PlantaoTecnico.save
        { u.plantao_solicitante with tecnico_principal := u.plantao_destinatario.tecnico_principal },
      plantao_destinatario := PlantaoTecnico.save
        { u.plantao_destinatario with tecnico_principal := u.plantao_solicitante.tecnico_principal },
      status := "ACEITA", respondido_em := some agora }, ?_, ?_⟩
  · unfold TrocaPlantaoTecnico.aceitar_troca
    rw [if_neg (by simp [hp])]
  · refine ⟨?_, ?_, ?_, ?_, ?_, ?_⟩ <;>
      simp [PlantaoTecnico.save_tecnico_principal, PlantaoTecnico.save_tecnico_dupla]

/-- Witness for C10: a pending technician request whose requester (id 2)
sits on the requester shift only as the dupla; accept still swaps the
principals and leaves both dupla fields alone. -/
theorem c10_dupla_preservada_witness :
    (TrocaPlantaoTecnico.status ⟨2, ⟨1, some 2, 5, "SABADO_DUPLA", ⟨14, 0⟩, ⟨18, 0⟩⟩, 3,
        ⟨3, none, 6, "DOMINGO_SOLO", ⟨8, 0⟩, ⟨18, 0⟩⟩, "PENDENTE", none⟩ = "PENDENTE") ∧
    (∃ u2, TrocaPlantaoTecnico.aceitar_troca
        ⟨2, ⟨1, some 2, 5, "SABADO_DUPLA", ⟨14, 0⟩, ⟨18, 0⟩⟩, 3,
         ⟨3, none, 6, "DOMINGO_SOLO", ⟨8, 0⟩, ⟨18, 0⟩⟩, "PENDENTE", none⟩ 42 = .ok u2 ∧
      u2.plantao_solicitante.tecnico_principal = 3 ∧
      u2.plantao_destinatario.tecnico_principal = 1 ∧
      u2.plantao_solicitante.tecnico_dupla = some 2 ∧
      u2.plantao_destinatario.tecnico_dupla = none ∧
      u2.status = "ACEITA" ∧
      u2.respondido_em = some 42) :=
  ⟨by decide,
   c10_dupla_preservada
     ⟨2, ⟨1, some 2, 5, "SABADO_DUPLA", ⟨14, 0⟩, ⟨18, 0⟩⟩, 3,
      ⟨3, none, 6, "DOMINGO_SOLO", ⟨8, 0⟩, ⟨18, 0⟩⟩, "PENDENTE", none⟩ 42 (by decide)⟩

/-- Counterexample to C5. A concrete PENDING request whose requester
shift has drifted: it is owned by collaborator 2 while the request's
requester is collaborator 1. The claim says accept must re-validate
ownership and fail with a StaleSwap condition, performing no swap; the
code performs no such re-validation: accept succeeds and swaps the
current owners 2 and 3 of the two shifts. -/
theorem c5_counterexample_drift_aceito :
    (TrocaPlantao.solicitante ⟨1, ⟨2, 5, "SAB", "SABADO_TARDE1", ⟨13, 0⟩, ⟨17, 0⟩⟩, 3,
        ⟨3, 6, "DOM", "DOMINGO_MANHA", ⟨8, 0⟩, ⟨13, 0⟩⟩, "PENDENTE", none⟩ = 1) ∧
    (TrocaPlantao.plantao_solicitante ⟨1, ⟨2, 5, "SAB", "SABADO_TARDE1", ⟨13, 0⟩, ⟨17, 0⟩⟩, 3,
        ⟨3, 6, "DOM", "DOMINGO_MANHA", ⟨8, 0⟩, ⟨13, 0⟩⟩, "PENDENTE", none⟩).colaborador = 2 ∧
    TrocaPlantao.aceitar_troca ⟨1, ⟨2, 5, "SAB", "SABADO_TARDE1", ⟨13, 0⟩, ⟨17, 0⟩⟩, 3,
        ⟨3, 6, "DOM", "DOMINGO_MANHA", ⟨8, 0⟩, ⟨13, 0⟩⟩, "PENDENTE", none⟩ 42 =
      .ok ⟨1, ⟨3, 5, "SAB", "SABADO_TARDE1", ⟨13, 0⟩, ⟨17, 0⟩⟩, 3,
        ⟨2, 6, "DOM", "DOMINGO_MANHA", ⟨8, 0⟩, ⟨13, 0⟩⟩, "ACEITA", some 42⟩ :=
  ⟨rfl, rfl, rfl⟩

/-- C5 as amended: `aceitar_troca` performs no ownership re-validation at
accept time. For every PENDING request — even one whose referenced
shifts have drifted so that the requester's shift is no longer owned by
the requester or the target's shift is no longer owned by the target —
accept succeeds and swaps whatever persons currently own the two shifts;
no StaleSwap condition exists in the code. -/
theorem c5_aceitar_ignora_drift (t : TrocaPlantao) (agora : Nat)
    (hp : t.status = "PENDENTE")
    (hdrift : t.plantao_solicitante.colaborador ≠ t.solicitante ∨
      t.plantao_destinatario.colaborador ≠ t.destinatario) :
    ∃ t2, t.aceitar_troca agora = .ok t2 ∧
      t2.plantao_solicitante.colaborador = t.plantao_destinatario.colaborador ∧
      t2.plantao_destinatario.colaborador = t.plantao_solicitante.colaborador ∧
      t2.status = "ACEITA" := by
  refine ⟨{ t with
      plantao_solicitante :=
        Plantao.save { t.plantao_solicitante with colaborador := t.plantao_destinatario.colaborador },
      plantao_destinatario :=
        Plantao.save { t.plantao_destinatario with colaborador := t.plantao_solicitante.colaborador },
      status := "ACEITA", respondido_em := some agora }, ?_, ?_, ?_, ?_⟩
  · unfold TrocaPlantao.aceitar_troca
    rw [if_neg (by simp [hp])]
  · simp [Plantao.save_colaborador]
  · simp [Plantao.save_colaborador]
  · rfl

/-- Witness for the amended C5, at the drifted request of the
counterexample. -/
theorem c5_aceitar_ignora_drift_witness :
    (TrocaPlantao.status ⟨1, ⟨2, 5, "SAB", "SABADO_TARDE1", ⟨13, 0⟩, ⟨17, 0⟩⟩, 3,
        ⟨3, 6, "DOM", "DOMINGO_MANHA", ⟨8, 0⟩, ⟨13, 0⟩⟩, "PENDENTE", none⟩ = "PENDENTE" ∧
     (2 : Nat) ≠ 1) ∧
    (∃ t2, TrocaPlantao.aceitar_troca ⟨1, ⟨2, 5, "SAB", "SABADO_TARDE1", ⟨13, 0⟩, ⟨17, 0⟩⟩, 3,
        ⟨3, 6, "DOM", "DOMINGO_MANHA", ⟨8, 0⟩, ⟨13, 0⟩⟩, "PENDENTE", none⟩ 42 = .ok t2 ∧
      t2.plantao_solicitante.colaborador = 3 ∧
      t2.plantao_destinatario.colaborador = 2 ∧
      t2.status = "ACEITA") :=
  ⟨⟨by decide, by decide⟩,
   c5_aceitar_ignora_drift
     ⟨1, ⟨2, 5, "SAB", "SABADO_TARDE1", ⟨13, 0⟩, ⟨17, 0⟩⟩, 3,
      ⟨3, 6, "DOM", "DOMINGO_MANHA", ⟨8, 0⟩, ⟨13, 0⟩⟩, "PENDENTE", none⟩ 42
     (by decide) (Or.inl (by decide))⟩

theorem inserirPlantoes_decomposicao :
    ∀ (ps reg : List Plantao), ∃ pre resto,
      ps = pre ++ resto ∧
      (inserirPlantoes reg ps).1 = reg ++ pre ∧
      ((inserirPlantoes reg ps).2 = none → resto = []) ∧
      (∀ e, (inserirPlantoes reg ps).2 = some e →
        e = "UNIQUE constraint failed: plantao.data, plantao.turno" ∧
        ∃ pp resto2, resto = pp :: resto2 ∧
          ∃ q ∈ reg ++ pre, q.data = pp.data ∧ q.turno = pp.turno) := by
  intro ps
  induction ps with
  | nil =>
    intro reg
    refine ⟨[], [], rfl, by simp [inserirPlantoes], fun _ => rfl, ?_⟩
    intro e he
    simp [inserirPlantoes] at he
  | cons p ps ih =>
    intro reg
    by_cases hc : reg.any (fun q => decide (q.data = p.data) && decide (q.turno = p.turno))
    · have hres : inserirPlantoes reg (p :: ps) =
          (reg, some "UNIQUE constraint failed: plantao.data, plantao.turno") := by
        simp [inserirPlantoes, inserirPlantao, hc]
      refine ⟨[], p :: ps, rfl, by simp [hres], ?_, ?_⟩
      · intro h
        rw [hres] at h
        simp at h
      · intro e he
        rw [hres] at he
        have he2 : e = "UNIQUE constraint failed: plantao.data, plantao.turno" := by
          simpa using he.symm
        obtain ⟨q, hq, hqk⟩ := List.any_eq_true.mp hc
        simp only [Bool.and_eq_true, decide_eq_true_eq] at hqk
        exact ⟨he2, p, ps, rfl, q, by simpa using hq, hqk.1, hqk.2⟩
    · have hstep : inserirPlantoes reg (p :: ps) = inserirPlantoes (reg ++ [p]) ps := by
        simp [inserirPlantoes, inserirPlantao, hc]
      obtain ⟨pre, resto, h1, h2, h3, h4⟩ := ih (reg ++ [p])
      refine ⟨p :: pre, resto, by simp [h1], ?_, ?_, ?_⟩
      · rw [hstep, h2]
        simp
      · intro h
        apply h3
        rw [hstep] at h
        exact h
      · intro e he
        rw [hstep] at he
        obtain ⟨he2, pp, resto2, hr, q, hq, hk1, hk2⟩ := h4 e he
        refine ⟨he2, pp, resto2, hr, q, ?_, hk1, hk2⟩
        simpa using hq

theorem criarPlantoesAutomaticosAux_decomposicao (colabs : List Nat) (d : Nat) :
    ∀ (s semana criados indice : Nat) (reg : List Plantao), ∃ pre resto,
      (gerarPlantoesAux d colabs s semana indice).1 = pre ++ resto ∧
      (criarPlantoesAutomaticosAux colabs d s semana criados indice reg).registry = reg ++ pre ∧
      ((criarPlantoesAutomaticosAux colabs d s semana criados indice reg).erro = none →
        resto = []) ∧
      (∀ e, (criarPlantoesAutomaticosAux colabs d s semana criados indice reg).erro = some e →
        e = "UNIQUE constraint failed: plantao.data, plantao.turno" ∧
        ∃ pp resto2, resto = pp :: resto2 ∧
          ∃ q ∈ reg ++ pre, q.data = pp.data ∧ q.turno = pp.turno) := by
  intro s
  induction s with
  | zero =>
    intro semana criados indice reg
    refine ⟨[], [], rfl, by simp [criarPlantoesAutomaticosAux], fun _ => rfl, ?_⟩
    intro e he
    simp [criarPlantoesAutomaticosAux] at he
  | succ s ih =>
    intro semana criados indice reg
    obtain ⟨pre1, resto1, h1, h2, h3, h4⟩ :=
      inserirPlantoes_decomposicao (plantoesSemana d colabs semana indice) reg
    cases hI : inserirPlantoes reg (plantoesSemana d colabs semana indice) with
    | mk reg2 oe =>
      rw [hI] at h2 h3 h4
      cases oe with
      | none =>
        have hres : resto1 = [] := h3 rfl
        subst hres
        have hpre1 : plantoesSemana d colabs semana indice = pre1 := by simpa using h1
        have hreg2 : reg2 = reg ++ pre1 := by simpa using h2
        obtain ⟨pre2, resto2, h21, h22, h23, h24⟩ := ih (semana + 1) (criados + 5) (indice + 2) reg2
        have hstep : criarPlantoesAutomaticosAux colabs d (s + 1) semana criados indice reg =
            criarPlantoesAutomaticosAux colabs d s (semana + 1) (criados + 5) (indice + 2) reg2 := by
          simp only [criarPlantoesAutomaticosAux, hI]
        refine ⟨pre1 ++ pre2, resto2, ?_, ?_, ?_, ?_⟩
        · simp only [gerarPlantoesAux, h21, hpre1]
          rw [List.append_assoc]
        · rw [hstep, h22, hreg2, List.append_assoc]
        · intro h
          apply h23
          rw [hstep] at h
          exact h
        · intro e he
          rw [hstep] at he
          obtain ⟨he2, pp, resto3, hr, q, hq, hk1, hk2⟩ := h24 e he
          refine ⟨he2, pp, resto3, hr, q, ?_, hk1, hk2⟩
          rw [hreg2, List.append_assoc] at hq
          exact hq
      | some e0 =>
        have hstep : criarPlantoesAutomaticosAux colabs d (s + 1) semana criados indice reg =
            ⟨reg2, criados, some e0⟩ := by
          simp only [criarPlantoesAutomaticosAux, hI]
        obtain ⟨he2, pp, resto2, hr, q, hq, hk1, hk2⟩ := h4 e0 rfl
        refine ⟨pre1, resto1 ++ (gerarPlantoesAux d colabs s (semana + 1) (indice + 2)).1,
          ?_, ?_, ?_, ?_⟩
        · simp only [gerarPlantoesAux]
          rw [h1, List.append_assoc]
        · rw [hstep]
          simpa using h2
        · intro h
          rw [hstep] at h
          simp at h
        · intro e he
          rw [hstep] at he
          have hee : e = e0 := by simpa using he.symm
          subst hee
          refine ⟨he2, pp, resto2 ++ (gerarPlantoesAux d colabs s (semana + 1) (indice + 2)).1,
            ?_, q, hq, hk1, hk2⟩
          rw [hr]
          rfl

/-- Counterexample to C6. A concrete run over a table already holding a
`DOMINGO_TARDE2` row on the Sunday of the generated weekend: the run
fails on its fifth insert, and the four rows inserted before the failure
stay in the table — nothing is rolled back, so the persisted set after
the failed run differs from the set before it. -/
theorem c6_counterexample_sem_rollback :
    criar_plantoes_automaticos [0, 1] [⟨7, 6, "DOM", "DOMINGO_TARDE2", ⟨17, 0⟩, ⟨21, 0⟩⟩] 5 1 =
      ⟨[⟨7, 6, "DOM", "DOMINGO_TARDE2", ⟨17, 0⟩, ⟨21, 0⟩⟩,
        ⟨0, 5, "SAB", "SABADO_TARDE1", ⟨13, 0⟩, ⟨17, 0⟩⟩,
        ⟨1, 5, "SAB", "SABADO_TARDE2", ⟨17, 0⟩, ⟨21, 0⟩⟩,
        ⟨1, 6, "DOM", "DOMINGO_MANHA", ⟨8, 0⟩, ⟨13, 0⟩⟩,
        ⟨0, 6, "DOM", "DOMINGO_TARDE1", ⟨13, 0⟩, ⟨17, 0⟩⟩],
       0, some "UNIQUE constraint failed: plantao.data, plantao.turno"⟩ ∧
    (criar_plantoes_automaticos [0, 1] [⟨7, 6, "DOM", "DOMINGO_TARDE2", ⟨17, 0⟩, ⟨21, 0⟩⟩] 5 1).registry ≠
      [⟨7, 6, "DOM", "DOMINGO_TARDE2", ⟨17, 0⟩, ⟨21, 0⟩⟩] := by
  refine ⟨rfl, ?_⟩
  decide

/-- C6 as amended: when an emitted assignment collides on (date,
slot_type) the run does fail with the uniqueness error, but there is no
rollback — each insert commits on its own, so after any run the table is
the initial table extended by exactly the emitted assignments inserted
before the failure point. Precisely: the emission splits as pre ++ resto
with the final table equal to the initial table extended by pre, where on
success resto is empty (everything was written), and on failure the error
is the uniqueness violation and the first assignment of resto — the one
whose insert failed, keeping the earlier inserts of pre in the table —
collides on (data, turno) with a row already in the extended table. -/
theorem c6_falha_preserva_inseridos (colabs : List Nat) (reg : List Plantao) (d k : Nat)
    (hc : 2 ≤ colabs.length) :
    ∃ pre resto,
      (gerarPlantoes d colabs k).1 = pre ++ resto ∧
      (criar_plantoes_automaticos colabs reg d k).registry = reg ++ pre ∧
      ((criar_plantoes_automaticos colabs reg d k).erro = none → resto = []) ∧
      (∀ e, (criar_plantoes_automaticos colabs reg d k).erro = some e →
        e = "UNIQUE constraint failed: plantao.data, plantao.turno" ∧
        ∃ pp resto2, resto = pp :: resto2 ∧
          ∃ q ∈ reg ++ pre, q.data = pp.data ∧ q.turno = pp.turno) := by
  have hfun : criar_plantoes_automaticos colabs reg d k =
      criarPlantoesAutomaticosAux colabs d k 0 0 0 reg := by
    unfold criar_plantoes_automaticos
    rw [if_neg (by omega)]
  unfold gerarPlantoes
  rw [hfun]
  exact criarPlantoesAutomaticosAux_decomposicao colabs d k 0 0 0 reg

/-- Witness for the amended C6, at the input of the counterexample: one
generated weekend over a table that already holds the Sunday
`DOMINGO_TARDE2` slot. -/
theorem c6_falha_preserva_inseridos_witness :
    2 ≤ ([0, 1] : List Nat).length ∧
    (∃ pre resto,
      (gerarPlantoes 5 [0, 1] 1).1 = pre ++ resto ∧
      (criar_plantoes_automaticos [0, 1]
        [⟨7, 6, "DOM", "DOMINGO_TARDE2", ⟨17, 0⟩, ⟨21, 0⟩⟩] 5 1).registry =
        [⟨7, 6, "DOM", "DOMINGO_TARDE2", ⟨17, 0⟩, ⟨21, 0⟩⟩] ++ pre ∧
      ((criar_plantoes_automaticos [0, 1]
        [⟨7, 6, "DOM", "DOMINGO_TARDE2", ⟨17, 0⟩, ⟨21, 0⟩⟩] 5 1).erro = none → resto = []) ∧
      (∀ e, (criar_plantoes_automaticos [0, 1]
        [⟨7, 6, "DOM", "DOMINGO_TARDE2", ⟨17, 0⟩, ⟨21, 0⟩⟩] 5 1).erro = some e →
        e = "UNIQUE constraint failed: plantao.data, plantao.turno" ∧
        ∃ pp resto2, resto = pp :: resto2 ∧
          ∃ q ∈ [⟨7, 6, "DOM", "DOMINGO_TARDE2", ⟨17, 0⟩, ⟨21, 0⟩⟩] ++ pre,
            q.data = pp.data ∧ q.turno = pp.turno)) :=
  ⟨by decide,
   c6_falha_preserva_inseridos [0, 1]
     [⟨7, 6, "DOM", "DOMINGO_TARDE2", ⟨17, 0⟩, ⟨21, 0⟩⟩] 5 1 (by decide)⟩

/-- Counterexample to C7. With cycle_count = 0 neither generator fails:
`range(0)` makes the loop body never run, no InvalidRange check exists
anywhere in either function, and the run returns success with 0 created
assignments (the caller even reports a success message). -/
theorem c7_counterexample_zero_ciclos :
    criar_plantoes_automaticos [0, 1] [] 5 0 = ⟨[], 0, none⟩ ∧
    criar_plantoes_tecnicos [0, 1] [] 5 0 = ⟨[], 0, none⟩ :=
  ⟨rfl, rfl⟩

/-- C7 as amended: a generation request with cycle_count = 0 is not
rejected — there is no InvalidRange validation in either generator.
With at least 2 active roster entries the run succeeds, produces no
assignments, returns count 0 and leaves the table untouched, in both
the collaborator and the technician domain. -/
theorem c7_zero_ciclos_aceito (colabs tecnicos : List Nat)
    (reg : List Plantao) (regT : List PlantaoTecnico) (d : Nat)
    (hc : 2 ≤ colabs.length) (ht : 2 ≤ tecnicos.length) :
    criar_plantoes_automaticos colabs reg d 0 = ⟨reg, 0, none⟩ ∧
    criar_plantoes_tecnicos tecnicos regT d 0 = ⟨regT, 0, none⟩ := by
  constructor
  · unfold criar_plantoes_automaticos
    rw [if_neg (by omega)]
    rfl
  · unfold criar_plantoes_tecnicos
    rw [if_neg (by omega)]
    rfl

/-- Witness for the amended C7. -/
theorem c7_zero_ciclos_aceito_witness :
    (2 ≤ ([0, 1] : List Nat).length ∧ 2 ≤ ([4, 5] : List Nat).length) ∧
    (criar_plantoes_automaticos [0, 1] [] 7 0 = ⟨[], 0, none⟩ ∧
     criar_plantoes_tecnicos [4, 5] [] 7 0 = ⟨[], 0, none⟩) :=
  ⟨⟨by decide, by decide⟩,
   c7_zero_ciclos_aceito [0, 1] [4, 5] [] [] 7 (by decide) (by decide)⟩

/-- C8. For every generation request over a roster with fewer than 2
active entries (in both the collaborator and the technician domain), the
generator fails with the InsufficientRoster error and writes no
assignments: the check runs before the loop, the raised message is the
source's, and the table is returned untouched with count 0. -/
theorem c8_roster_insuficiente (colabs tecnicos : List Nat)
    (reg : List Plantao) (regT : List PlantaoTecnico) (d k : Nat)
    (hc : colabs.length < 2) (ht : tecnicos.length < 2) :
    criar_plantoes_automaticos colabs reg d k =
      ⟨reg, 0, some "É necessário ter pelo menos 2 colaboradores ativos!"⟩ ∧
    criar_plantoes_tecnicos tecnicos regT d k =
      ⟨regT, 0, some "É necessário ter pelo menos 2 técnicos ativos!"⟩ := by
  constructor
  · unfold criar_plantoes_automaticos
    rw [if_pos hc]
  · unfold criar_plantoes_tecnicos
    rw [if_pos ht]

/-- Witness for C8: single-member rosters. -/
theorem c8_roster_insuficiente_witness :
    (([0] : List Nat).length < 2 ∧ ([4] : List Nat).length < 2) ∧
    (criar_plantoes_automaticos [0] [] 5 3 =
      ⟨[], 0, some "É necessário ter pelo menos 2 colaboradores ativos!"⟩ ∧
     criar_plantoes_tecnicos [4] [] 5 3 =
      ⟨[], 0, some "É necessário ter pelo menos 2 técnicos ativos!"⟩) :=
  ⟨⟨by decide, by decide⟩,
   c8_roster_insuficiente [0] [4] [] [] 5 3 (by decide) (by decide)⟩

/-- C9. For every persisted shift assignment with a fixed slot type, the
start and end times equal the fixed times determined by that slot type
(SABADO_TARDE1 and DOMINGO_TARDE1 are 13:00-17:00, SABADO_TARDE2 and
DOMINGO_TARDE2 are 17:00-21:00, DOMINGO_MANHA is 08:00-13:00; technician
SABADO_DUPLA is 14:00-18:00, the solo types are 08:00-18:00); every save
operation re-derives the times from the slot type — whatever times a row
carries before `save`, they are overwritten from the type — so the times
can never be set independently of the type. -/
theorem c9_horarios_derivados_do_turno :
    (∀ p : Plantao,
      (Plantao.save { p with turno := "SABADO_TARDE1" }).hora_inicio = ⟨13, 0⟩ ∧
      (Plantao.save { p with turno := "SABADO_TARDE1" }).hora_fim = ⟨17, 0⟩ ∧
      (Plantao.save { p with turno := "SABADO_TARDE2" }).hora_inicio = ⟨17, 0⟩ ∧
      (Plantao.save { p with turno := "SABADO_TARDE2" }).hora_fim = ⟨21, 0⟩ ∧
      (Plantao.save { p with turno := "DOMINGO_MANHA" }).hora_inicio = ⟨8, 0⟩ ∧
      (Plantao.save { p with turno := "DOMINGO_MANHA" }).hora_fim = ⟨13, 0⟩ ∧
      (Plantao.save { p with turno := "DOMINGO_TARDE1" }).hora_inicio = ⟨13, 0⟩ ∧
      (Plantao.save { p with turno := "DOMINGO_TARDE1" }).hora_fim = ⟨17, 0⟩ ∧
      (Plantao.save { p with turno := "DOMINGO_TARDE2" }).hora_inicio = ⟨17, 0⟩ ∧
      (Plantao.save { p with turno := "DOMINGO_TARDE2" }).hora_fim = ⟨21, 0⟩) ∧
    (∀ q : PlantaoTecnico,
      (PlantaoTecnico.save { q with tipo := "SABADO_DUPLA" }).hora_inicio = ⟨14, 0⟩ ∧
      (PlantaoTecnico.save { q with tipo := "SABADO_DUPLA" }).hora_fim = ⟨18, 0⟩ ∧
      (PlantaoTecnico.save { q with tipo := "DOMINGO_SOLO" }).hora_inicio = ⟨8, 0⟩ ∧
      (PlantaoTecnico.save { q with tipo := "DOMINGO_SOLO" }).hora_fim = ⟨18, 0⟩ ∧
      (PlantaoTecnico.save { q with tipo := "AVULSO_SOLO" }).hora_inicio = ⟨8, 0⟩ ∧
      (PlantaoTecnico.save { q with tipo := "AVULSO_SOLO" }).hora_fim = ⟨18, 0⟩) := by
  constructor
  · intro p
    refine ⟨?_, ?_, ?_, ?_, ?_, ?_, ?_, ?_, ?_, ?_⟩
    all_goals
      unfold Plantao.save
      simp [get_horarios_por_turno]
      try (split <;> (try split) <;> rfl)
  · intro q
    refine ⟨?_, ?_, ?_, ?_, ?_, ?_⟩
    all_goals
      unfold PlantaoTecnico.save
      simp
